import Mathlib

/-!
# Verification of `discord_queue_clicker.py`

A shallow embedding of the detection-and-verification pipeline of
`src/discord_queue_clicker.py` (class `DiscordQueueClicker`), together with
theorems settling the specification claims about it.

Modelling choices:
* OpenCV is an opaque external capability. `cv2.cvtColor`, `cv2.inRange`,
  `cv2.findContours`, `cv2.contourArea` and `cv2.boundingRect` are summarised
  by a `Vision` function that, given the configured HSV colour range and a
  pixel buffer, yields the list of external contours, each already carrying
  its `contourArea` (a rational, as OpenCV returns a float that is an exact
  half-integer for integer polygons) and its bounding rectangle.
* A pixel buffer is represented by its shape (`shape[0]` = height,
  `shape[1]` = width); pixel contents matter only through the opaque
  capabilities (`Vision`, OCR).
* `pytesseract` is an optional, fallible capability: `none` models the
  `ImportError` path, and a present capability returns `Except`, the
  `.error` case modelling any exception raised during the OCR attempt
  (the Python code catches both and returns `False`).
* The monitoring loop consumes a list of tick inputs: a captured frame, a
  `KeyboardInterrupt` raised during the tick, or any other exception raised
  during the tick (e.g. a screenshot failure). The loop is single-threaded,
  so `self.running` stays `true` during a run unless the interrupt handler
  resets it; `RunResult.running` records its final value.
-/

namespace DQC

/-- A pixel buffer, abstracted to its numpy shape: `shape[0]` is the height,
`shape[1]` the width (the code only reads the shape; pixel data is consumed
by the opaque vision/OCR capabilities). -/
structure Buf where
  height : Nat
  width : Nat
deriving DecidableEq

/-- An HSV colour triple, as used for `lower_blue` / `upper_blue`. -/
abbrev HSVColor := Nat × Nat × Nat

/-- A candidate bounding rectangle `(x, y, w, h)`, as produced by
`cv2.boundingRect`. -/
abbrev Rect := Nat × Nat × Nat × Nat

/-- One external contour as the filtering loop of `detect_blue_button sees
it: its `cv2.contourArea` and its `cv2.boundingRect`. -/
structure Contour where
  area : ℚ
  x : Nat
  y : Nat
  w : Nat
  h : Nat
deriving DecidableEq

/-- The opaque OpenCV front end of `detect_blue_button` (lines 56–62):
`cvtColor` + `inRange` over the configured colour range + `findContours`
with `RETR_EXTERNAL`, summarised as a function from the colour range and
the buffer to the extracted contours. -/
abbrev Vision := HSVColor → HSVColor → Buf → List Contour

/-- Line 71: `aspect_ratio = w / h if h > 0 else 0`. -/
def aspect (c : Contour) : ℚ :=
  if 0 < c.h then (c.w : ℚ) / (c.h : ℚ) else 0

/-- The body of the `for contour in contours` loop of `detect_blue_button`
(lines 65–73): emit the bounding rectangle when `1000 < area < 100000` and
`1.5 < aspect_ratio < 10`, both strict. -/
def contourEmit (c : Contour) : Option Rect :=
  if 1000 < c.area ∧ c.area < 100000 then
    if (3 / 2 : ℚ) < aspect c ∧ aspect c < 10 then
      some (c.x, c.y, c.w, c.h)
    else none
  else none

/-- The `DiscordQueueClicker` object state set up by `__init__`
(lines 25–43). -/
structure DiscordQueueClicker where
  check_interval : ℚ
  confidence : ℚ
  running : Bool
  lower_blue : HSVColor
  upper_blue : HSVColor
deriving DecidableEq

/-- `__init__(check_interval, confidence)` (lines 25–43): stores the two
parameters, sets `running = False` and the fixed blue HSV range
`[100,100,100]`–`[130,255,255]`. -/
def DiscordQueueClicker.init (check_interval confidence : ℚ) :
    DiscordQueueClicker :=
  { check_interval := check_interval
    confidence := confidence
    running := false
    lower_blue := (100, 100, 100)
    upper_blue := (130, 255, 255) }

/-- `detect_blue_button(screenshot)` (lines 45–75): run the opaque OpenCV
front end on the configured colour range, then filter the contours with the
area/aspect-ratio loop, appending bounding rectangles in contour order. -/
def DiscordQueueClicker.detect_blue_button (self : DiscordQueueClicker)
    (vision : Vision) (screenshot : Buf) : List Rect :=
  (vision self.lower_blue self.upper_blue screenshot).filterMap contourEmit

/-- The optional, fallible OCR capability. `none` models the `ImportError`
path of `check_for_text_near_button` (pytesseract unavailable); a present
capability maps the screenshot and the clamped crop bounds to either the
recognised text of `pytesseract.image_to_string` applied to the
cropped/grayscaled/thresholded sub-image, or an error modelling any
exception raised during the attempt. -/
abbrev OCRCap := Option (Buf → Int × Int × Int × Int → Except String String)

/-- Lines 94–98 of `check_for_text_near_button`: expand the region by the
fixed `margin = 20` and clamp to the buffer edges:
`x1 = max(0, x-20)`, `y1 = max(0, y-20)`,
`x2 = min(shape[1], x+w+20)`, `y2 = min(shape[0], y+h+20)`. -/
def cropBounds (screenshot : Buf) (region : Rect) : Int × Int × Int × Int :=
  let (x, y, w, h) := region
  (max 0 ((x : Int) - 20), max 0 ((y : Int) - 20),
   min (screenshot.width : Int) ((x : Int) + w + 20),
   min (screenshot.height : Int) ((y : Int) + h + 20))

/-- Case-insensitive check for Python's `keyword.lower() in text` where
`text` is already lowercased: substring containment on the character
lists. -/
def kwHit (keyword text : String) : Bool :=
  decide (keyword.toLower.toList <:+: text.toList)

/-- `check_for_text_near_button(screenshot, button_region, keywords)`
(lines 77–119): if pytesseract is unavailable (`ImportError`), log and
return `False`; otherwise crop the clamped expanded region, grayscale,
threshold and OCR it (any exception is caught, logged at debug level and
falls through to `return False`); on success, lowercase the text and return
`True` iff some keyword is a substring of it. -/
def check_for_text_near_button (ocr : OCRCap) (screenshot : Buf)
    (button_region : Rect) (keywords : List String) : Bool :=
  match ocr with
  | none => false
  | some recognize =>
    match recognize screenshot (cropBounds screenshot button_region) with
    | Except.error _ => false
    | Except.ok raw =>
      let text := raw.toLower
      keywords.any fun keyword => kwHit keyword text

/-- `click_button(x, y, w, h)` (lines 121–133): the pointer coordinates
dispatched to `pyautogui.click` are the raw centre of the bounding box,
`center_x = x + w // 2`, `center_y = y + h // 2`, with no rescaling. -/
def click_button (x y w h : Nat) : Nat × Nat :=
  (x + w / 2, y + h / 2)

/-- What one iteration of the `while self.running` loop encounters:
a successfully captured screenshot, a `KeyboardInterrupt` raised during the
tick, or any other exception raised during the tick (with its message). -/
inductive TickInput where
  | frame (screenshot : Buf)
  | interrupt
  | err (msg : String)
deriving DecidableEq

/-- How a monitoring run ends: `succeeded` = `return True` after a click;
`cancelled` = `KeyboardInterrupt` handler ran (clean return);
`failed msg` = the generic handler logged and re-raised the exception
`msg`; `exhausted` = the supplied tick inputs ran out with the loop still
going (no terminal condition reached within them). -/
inductive Outcome where
  | succeeded
  | cancelled
  | failed (msg : String)
  | exhausted
deriving DecidableEq

/-- The observable result of a monitoring run: the clicks dispatched to the
actuator, how the run ended, and the final value of `self.running` (which
was set to `True` at line 154 when the run started). -/
structure RunResult where
  clicks : List (Nat × Nat)
  outcome : Outcome
  running : Bool
deriving DecidableEq

/-- The `for button in buttons` loop of `start_monitoring` (lines 170–184):
the button that gets clicked is the first one that passes the gate — with
`use_ocr` enabled the gate is `check_for_text_near_button`, with it
disabled every button passes immediately. -/
def clickTarget (use_ocr : Bool) (ocr : OCRCap) (screenshot : Buf)
    (keywords : List String) (buttons : List Rect) : Option Rect :=
  buttons.find? fun b =>
    if use_ocr then check_for_text_near_button ocr screenshot b keywords
    else true

/-- `start_monitoring(keywords, use_ocr)` (lines 143–194), with
`self.running` set to `True` at entry (line 154). Each tick: capture a
screenshot, detect blue buttons, click the first accepted button and
`return True` (`succeeded`); otherwise sleep `check_interval` and loop. A
`KeyboardInterrupt` during a tick is caught at the loop boundary: the run
ends cleanly with `self.running = False` (`cancelled`). Any other
exception is logged and re-raised unmodified (`failed`), and — faithfully
to the code — the handler does NOT reset `self.running`. -/
def DiscordQueueClicker.start_monitoring (self : DiscordQueueClicker)
    (vision : Vision) (ocr : OCRCap) (keywords : List String)
    (use_ocr : Bool) : List TickInput → RunResult
  | [] => ⟨[], Outcome.exhausted, true⟩
  | TickInput.interrupt :: _ => ⟨[], Outcome.cancelled, false⟩
  | TickInput.err m :: _ => ⟨[], Outcome.failed m, true⟩
  | TickInput.frame screenshot :: rest =>
    match clickTarget use_ocr ocr screenshot keywords
        (self.detect_blue_button vision screenshot) with
    | some (x, y, w, h) => ⟨[click_button x y w h], Outcome.succeeded, true⟩
    | none => self.start_monitoring vision ocr keywords use_ocr rest

/-- Line 154: `self.running = True` at the start of `start_monitoring`. -/
def DiscordQueueClicker.startRunning (self : DiscordQueueClicker) :
    DiscordQueueClicker :=
  { self with running := true }

/-- `stop()` (lines 196–199): sets `self.running = False`. -/
def DiscordQueueClicker.stop (self : DiscordQueueClicker) :
    DiscordQueueClicker :=
  { self with running := false }

/-! ## Helper lemmas -/

/-- Characterisation of the per-contour filter of `detect_blue_button`. -/
theorem contourEmit_eq_some (c : Contour) (r : Rect) :
    contourEmit c = some r ↔
      (1000 < c.area ∧ c.area < 100000) ∧
      ((3 / 2 : ℚ) < aspect c ∧ aspect c < 10) ∧
      r = (c.x, c.y, c.w, c.h) := by
  unfold contourEmit
  split_ifs with h1 h2
  · simp [h1, h2, eq_comm]
  · simp [h1, h2]
  · simp [h1]

/-! ## Claim theorems -/

/-- C1: `detect_blue_button` returns exactly those contour bounding
rectangles `(x, y, w, h)` whose enclosed contour area lies strictly between
the configured minimum (1000) and maximum (100000) and whose aspect ratio
`w/h` lies strictly within the configured band (1.5, 10); every emitted
region satisfies these bounds. -/
theorem detect_blue_button_spec (self : DiscordQueueClicker)
    (vision : Vision) (screenshot : Buf) (r : Rect) :
    r ∈ self.detect_blue_button vision screenshot ↔
      ∃ c ∈ vision self.lower_blue self.upper_blue screenshot,
        r = (c.x, c.y, c.w, c.h) ∧
        1000 < c.area ∧ c.area < 100000 ∧
        (3 / 2 : ℚ) < aspect c ∧ aspect c < 10 := by
  simp only [DiscordQueueClicker.detect_blue_button, List.mem_filterMap,
    contourEmit_eq_some]
  constructor
  · rintro ⟨c, hc, ⟨h1, h2⟩, ⟨h3, h4⟩, hr⟩
    exact ⟨c, hc, hr, h1, h2, h3, h4⟩
  · rintro ⟨c, hc, hr, h1, h2, h3, h4⟩
    exact ⟨c, hc, ⟨h1, h2⟩, ⟨h3, h4⟩, hr⟩

/-- A contour sitting at the very top of a 1000-pixel-tall frame
(`y = 0`, well inside the top 20 % band) whose area (5000) and aspect
ratio (3) pass the configured bounds. -/
def cOnTop : Contour := ⟨5000, 10, 0, 120, 40⟩

/-- A vision capability extracting exactly `cOnTop`. -/
def visOnTop : Vision := fun _ _ _ => [cOnTop]

/-- A 1600 × 1000 frame. -/
def bufTall : Buf := ⟨1000, 1600⟩

/-- C2 counterexample: the code has no vertical-position filter. A region
at `y = 0` — inside the claimed excluded top ~20 % band of a
1000-pixel-tall frame — whose area and aspect ratio pass is nevertheless
returned by `detect_blue_button`, contradicting the claimed exclusion. -/
theorem detect_no_vertical_filter_cex :
    (10, 0, 120, 40) ∈
      (DiscordQueueClicker.init (1 / 2) (7 / 10)).detect_blue_button
        visOnTop bufTall ∧
    (cOnTop.y : ℚ) < 20 / 100 * (bufTall.height : ℚ) ∧
    1000 < cOnTop.area ∧ cOnTop.area < 100000 ∧
    (3 / 2 : ℚ) < aspect cOnTop ∧ aspect cOnTop < 10 := by
  refine ⟨?_, ?_, ?_, ?_, ?_, ?_⟩ <;>
    norm_num [DiscordQueueClicker.detect_blue_button,
      DiscordQueueClicker.init, visOnTop, bufTall, cOnTop, contourEmit,
      aspect]

/-- C2 (amended): `detect_blue_button` applies no vertical-position
filtering at all — every extracted contour whose area and aspect ratio
pass the configured bounds is returned, whatever its vertical position
(in particular inside the top ~20 % or bottom ~10 % bands of the frame). -/
theorem detect_ignores_vertical_position (self : DiscordQueueClicker)
    (vision : Vision) (screenshot : Buf) (c : Contour)
    (hmem : c ∈ vision self.lower_blue self.upper_blue screenshot)
    (harea : 1000 < c.area ∧ c.area < 100000)
    (hasp : (3 / 2 : ℚ) < aspect c ∧ aspect c < 10) :
    (c.x, c.y, c.w, c.h) ∈ self.detect_blue_button vision screenshot := by
  simp only [DiscordQueueClicker.detect_blue_button, List.mem_filterMap]
  exact ⟨c, hmem, (contourEmit_eq_some c _).2 ⟨harea, hasp, rfl⟩⟩

/-- Witness for C2 (amended) at a concrete top-of-frame contour. -/
theorem detect_ignores_vertical_position_witness :
    ((5000 : ℚ), 10, 0, 120, 40) = ((cOnTop.area, cOnTop.x, cOnTop.y,
      cOnTop.w, cOnTop.h) : ℚ × Nat × Nat × Nat × Nat) ∧
    (cOnTop.x, cOnTop.y, cOnTop.w, cOnTop.h) ∈
      (DiscordQueueClicker.init (1 / 2) (7 / 10)).detect_blue_button
        visOnTop bufTall :=
  ⟨by norm_num [cOnTop],
   detect_ignores_vertical_position _ visOnTop bufTall cOnTop
     (by simp [visOnTop])
     (by norm_num [cOnTop])
     (by norm_num [cOnTop, aspect])⟩

/-- C3: a bounding rectangle of height zero gets aspect ratio `0` (the
`if h > 0 else 0` guard — no division is even attempted), which fails the
strict band `1.5 < ratio < 10`, so the contour is rejected and
`detect_blue_button` emits nothing for it. -/
theorem aspect_zero_height_rejects (c : Contour) (h : c.h = 0) :
    aspect c = 0 ∧ contourEmit c = none ∧
    ∀ (self : DiscordQueueClicker) (screenshot : Buf),
      self.detect_blue_button (fun _ _ _ => [c]) screenshot = [] := by
  have ha : aspect c = 0 := by simp [aspect, h]
  have he : contourEmit c = none := by
    unfold contourEmit
    split_ifs with h1 h2
    · exact absurd (ha ▸ h2.1) (by norm_num)
    · rfl
    · rfl
  exact ⟨ha, he, fun self screenshot => by
    simp [DiscordQueueClicker.detect_blue_button, he]⟩

/-- A contour with a height-zero bounding rectangle. -/
def cFlat : Contour := ⟨5000, 1, 2, 30, 0⟩

/-- Witness for C3 at a concrete height-zero contour. -/
theorem aspect_zero_height_rejects_witness :
    aspect cFlat = 0 ∧ contourEmit cFlat = none ∧
    (DiscordQueueClicker.init 1 1).detect_blue_button
      (fun _ _ _ => [cFlat]) ⟨100, 100⟩ = [] := by
  obtain ⟨h1, h2, h3⟩ := aspect_zero_height_rejects cFlat rfl
  exact ⟨h1, h2, h3 _ _⟩

/-- C4: `check_for_text_near_button` returns `true` iff the OCR capability
is available, the OCR attempt on the clamped crop succeeds, and some
keyword is a case-insensitive substring of the recognised text; when the
capability is unavailable (`ImportError`) or the attempt errors, it
returns `false` — in the embedding it is a total boolean function, the
source's `try/except` guaranteeing that no exception escapes to the
monitoring loop. -/
theorem check_for_text_spec (ocr : OCRCap) (screenshot : Buf)
    (button_region : Rect) (keywords : List String) :
    check_for_text_near_button ocr screenshot button_region keywords
        = true ↔
      ∃ recognize, ocr = some recognize ∧
        ∃ t, recognize screenshot (cropBounds screenshot button_region)
            = Except.ok t ∧
          ∃ k ∈ keywords, k.toLower.toList <:+: t.toLower.toList := by
  unfold check_for_text_near_button
  cases ocr with
  | none => simp
  | some recognize =>
    cases hf : recognize screenshot (cropBounds screenshot button_region)
      with
    | error e => simp [hf]
    | ok t => simp [hf, kwHit, List.any_eq_true]

/-- C5: the crop bounds computed by `check_for_text_near_button` after the
fixed 20-pixel expansion are clamped inside the buffer: `x1, y1 ≥ 0`,
`x2 ≤ shape[1]` (width) and `y2 ≤ shape[0]` (height), so the slice
neither wraps (numpy negative indexing) nor exceeds the buffer. -/
theorem cropBounds_in_bounds (screenshot : Buf) (region : Rect) :
    0 ≤ (cropBounds screenshot region).1 ∧
    0 ≤ (cropBounds screenshot region).2.1 ∧
    (cropBounds screenshot region).2.2.1 ≤ (screenshot.width : Int) ∧
    (cropBounds screenshot region).2.2.2 ≤ (screenshot.height : Int) := by
  obtain ⟨x, y, w, h⟩ := region
  exact ⟨le_max_left _ _, le_max_left _ _, min_le_left _ _,
    min_le_left _ _⟩

/-- A contour whose bounding-box centre is `(200, 100)` and which passes
the area/aspect filter (area 5000, aspect 10/3). -/
def cCenter : Contour := ⟨5000, 150, 85, 100, 30⟩

/-- A vision capability extracting exactly `cCenter`. -/
def visCenter : Vision := fun _ _ _ => [cCenter]

/-- A 3840 × 2160 buffer — twice as wide as a 1920-wide logical screen. -/
def bufRetina : Buf := ⟨2160, 3840⟩

/-- C6 counterexample: `click_button` performs no coordinate rescaling —
no screen dimension is even an input to the click path. For a 3840-wide
buffer (double a 1920-wide logical screen) and a candidate centred at
`(200, 100)`, the dispatched pointer coordinates are `(200, 100)`, not the
`(100, 50)` the claim requires. -/
theorem click_no_scaling_cex :
    ((DiscordQueueClicker.init (1 / 2) (7 / 10)).start_monitoring visCenter
        none [] false [TickInput.frame bufRetina]).clicks = [(200, 100)] ∧
    ((200, 100) : Nat × Nat) ≠ (100, 50) := by
  constructor
  · norm_num [DiscordQueueClicker.start_monitoring, clickTarget,
      DiscordQueueClicker.detect_blue_button, DiscordQueueClicker.init,
      visCenter, bufRetina, cCenter, contourEmit, aspect, click_button]
  · decide

/-- C6 (amended): the pointer coordinates dispatched for the accepted
candidate `(x, y, w, h)` are its raw integer centre
`(x + w // 2, y + h // 2)` in buffer pixel coordinates, with no rescaling:
buffer and screen widths play no role, so coordinates pass through
unchanged whether or not the widths match. -/
theorem click_dispatch_center (self : DiscordQueueClicker)
    (vision : Vision) (ocr : OCRCap) (keywords : List String)
    (use_ocr : Bool) (screenshot : Buf) (rest : List TickInput)
    (x y w h : Nat)
    (hsel : clickTarget use_ocr ocr screenshot keywords
        (self.detect_blue_button vision screenshot) = some (x, y, w, h)) :
    self.start_monitoring vision ocr keywords use_ocr
        (TickInput.frame screenshot :: rest)
      = ⟨[(x + w / 2, y + h / 2)], Outcome.succeeded, true⟩ := by
  simp [DiscordQueueClicker.start_monitoring, hsel, click_button]

/-- Witness for C6 (amended): the concrete candidate centred at
`(200, 100)` in the double-width buffer is clicked at exactly
`(150 + 100 / 2, 85 + 30 / 2) = (200, 100)`. -/
theorem click_dispatch_center_witness :
    (DiscordQueueClicker.init (1 / 2) (7 / 10)).start_monitoring visCenter
        none [] false [TickInput.frame bufRetina]
      = ⟨[(150 + 100 / 2, 85 + 30 / 2)], Outcome.succeeded, true⟩ :=
  click_dispatch_center _ visCenter none [] false bufRetina [] 150 85 100 30
    (by norm_num [clickTarget, DiscordQueueClicker.detect_blue_button,
      DiscordQueueClicker.init, visCenter, bufRetina, cCenter, contourEmit,
      aspect, List.find?])

/-- C7: at most one click per monitoring run; with `use_ocr = false` the
first tick with a non-empty candidate list clicks its first candidate
exactly once and the run ends in `succeeded` immediately, ignoring all
later ticks (no re-arming); with `use_ocr = true` the same holds for the
first candidate accepted by the OCR gate. -/
theorem start_monitoring_single_click (self : DiscordQueueClicker)
    (vision : Vision) (ocr : OCRCap) (keywords : List String) :
    (∀ (use_ocr : Bool) (inputs : List TickInput),
      (self.start_monitoring vision ocr keywords use_ocr
          inputs).clicks.length ≤ 1) ∧
    (∀ (screenshot : Buf) (rest : List TickInput) (x y w h : Nat)
        (bs : List Rect),
      self.detect_blue_button vision screenshot = (x, y, w, h) :: bs →
      self.start_monitoring vision ocr keywords false
          (TickInput.frame screenshot :: rest)
        = ⟨[click_button x y w h], Outcome.succeeded, true⟩) ∧
    (∀ (screenshot : Buf) (rest : List TickInput) (x y w h : Nat),
      clickTarget true ocr screenshot keywords
          (self.detect_blue_button vision screenshot) = some (x, y, w, h) →
      self.start_monitoring vision ocr keywords true
          (TickInput.frame screenshot :: rest)
        = ⟨[click_button x y w h], Outcome.succeeded, true⟩) := by
  refine ⟨fun use_ocr inputs => ?_, fun s rest x y w h bs hdet => ?_,
    fun s rest x y w h hsel => ?_⟩
  · induction inputs with
    | nil => simp [DiscordQueueClicker.start_monitoring]
    | cons i rest ih =>
      cases i with
      | interrupt => simp [DiscordQueueClicker.start_monitoring]
      | err m => simp [DiscordQueueClicker.start_monitoring]
      | frame s =>
        cases hct : clickTarget use_ocr ocr s keywords
            (self.detect_blue_button vision s) with
        | none => simpa [DiscordQueueClicker.start_monitoring, hct] using ih
        | some r =>
          obtain ⟨x, y, w, h⟩ := r
          simp [DiscordQueueClicker.start_monitoring, hct]
  · have hct : clickTarget false ocr s keywords
        (self.detect_blue_button vision s) = some (x, y, w, h) := by
      rw [hdet]; rfl
    simp [DiscordQueueClicker.start_monitoring, hct]
  · simp [DiscordQueueClicker.start_monitoring, hsel]

/-- Witness for C7: with OCR disabled and one passing candidate on the
first tick, the run clicks once and ends in `succeeded`. -/
theorem start_monitoring_single_click_witness :
    (DiscordQueueClicker.init (1 / 2) (7 / 10)).start_monitoring visOnTop
        none [] false [TickInput.frame bufTall]
      = ⟨[click_button 10 0 120 40], Outcome.succeeded, true⟩ :=
  (start_monitoring_single_click _ visOnTop none []).2.1 bufTall [] 10 0
    120 40 []
    (by
      have h : contourEmit ⟨5000, 10, 0, 120, 40⟩ = some (10, 0, 120, 40) :=
        (contourEmit_eq_some _ _).2 (by norm_num [aspect])
      simp [DiscordQueueClicker.detect_blue_button, DiscordQueueClicker.init,
        visOnTop, cOnTop, List.filterMap_cons, h])

/-- A tick on which the loop keeps polling: a captured frame whose
candidate list yields no accepted button. -/
def quietTick (self : DiscordQueueClicker) (vision : Vision) (ocr : OCRCap)
    (keywords : List String) (use_ocr : Bool) (i : TickInput) : Prop :=
  ∃ screenshot, i = TickInput.frame screenshot ∧
    clickTarget use_ocr ocr screenshot keywords
      (self.detect_blue_button vision screenshot) = none

/-- C8: after any run of quiet ticks, a `KeyboardInterrupt` during a tick
ends the run cleanly in `cancelled` (flag reset, no click, nothing
re-raised), while any other exception ends it in `failed` carrying the
identical message (logged then re-raised unmodified); in both cases all
subsequent ticks are ignored — the loop neither retries nor resumes. -/
theorem start_monitoring_error_classes (self : DiscordQueueClicker)
    (vision : Vision) (ocr : OCRCap) (keywords : List String)
    (use_ocr : Bool) (pre rest : List TickInput) (m : String)
    (hq : ∀ i ∈ pre, quietTick self vision ocr keywords use_ocr i) :
    self.start_monitoring vision ocr keywords use_ocr
        (pre ++ TickInput.interrupt :: rest)
      = ⟨[], Outcome.cancelled, false⟩ ∧
    self.start_monitoring vision ocr keywords use_ocr
        (pre ++ TickInput.err m :: rest)
      = ⟨[], Outcome.failed m, true⟩ := by
  induction pre with
  | nil => exact ⟨rfl, rfl⟩
  | cons i pre ih =>
    obtain ⟨s, rfl, hnone⟩ := hq i (List.mem_cons_self i pre)
    have ih' := ih fun j hj => hq j (List.mem_cons_of_mem _ hj)
    refine ⟨?_, ?_⟩
    · simpa [DiscordQueueClicker.start_monitoring, hnone] using ih'.1
    · simpa [DiscordQueueClicker.start_monitoring, hnone] using ih'.2

/-- Witness for C8: one quiet tick (empty candidate list), then either an
interrupt or a generic error. -/
theorem start_monitoring_error_classes_witness :
    (DiscordQueueClicker.init 1 1).start_monitoring (fun _ _ _ => []) none
        [] true ([TickInput.frame ⟨100, 100⟩] ++ TickInput.interrupt :: [])
      = ⟨[], Outcome.cancelled, false⟩ ∧
    (DiscordQueueClicker.init 1 1).start_monitoring (fun _ _ _ => []) none
        [] true ([TickInput.frame ⟨100, 100⟩] ++ TickInput.err "boom" :: [])
      = ⟨[], Outcome.failed "boom", true⟩ :=
  start_monitoring_error_classes _ _ none [] true
    [TickInput.frame ⟨100, 100⟩] [] "boom"
    (by intro i hi
        simp only [List.mem_singleton] at hi
        exact hi ▸ ⟨⟨100, 100⟩, rfl, rfl⟩)

/-- C9 counterexample: after a run that terminates through the generic
exception handler (which logs and re-raises but never resets the flag),
`self.running` is still `true` — contradicting the claim that the flag is
set false after an error terminates the loop. -/
theorem running_after_error_cex :
    ((DiscordQueueClicker.init 1 1).start_monitoring (fun _ _ _ => [])
        none [] true [TickInput.err "boom"]).running = true := rfl

/-- C9 (amended): the Running Flag is set true when monitoring starts and
set false on cancellation (user interrupt) and by `stop()`; after any
other error terminates the loop the flag REMAINS true (the generic
handler re-raises without resetting it); the loop does not restart — the
terminal tick discards all subsequent inputs. -/
theorem running_flag_spec :
    (∀ self : DiscordQueueClicker,
      self.startRunning.running = true ∧ self.stop.running = false) ∧
    (∀ (self : DiscordQueueClicker) (vision : Vision) (ocr : OCRCap)
        (keywords : List String) (use_ocr : Bool) (rest : List TickInput),
      (self.start_monitoring vision ocr keywords use_ocr
          (TickInput.interrupt :: rest)).running = false) ∧
    (∀ (self : DiscordQueueClicker) (vision : Vision) (ocr : OCRCap)
        (keywords : List String) (use_ocr : Bool) (m : String)
        (rest : List TickInput),
      (self.start_monitoring vision ocr keywords use_ocr
          (TickInput.err m :: rest)).running = true) :=
  ⟨fun _ => ⟨rfl, rfl⟩, fun _ _ _ _ _ _ => rfl, fun _ _ _ _ _ _ _ => rfl⟩

/-- `detect_blue_button` only reads the colour-range fields of the
object. -/
theorem detect_congr (self₁ self₂ : DiscordQueueClicker) (vision : Vision)
    (screenshot : Buf) (hl : self₁.lower_blue = self₂.lower_blue)
    (hu : self₁.upper_blue = self₂.upper_blue) :
    self₁.detect_blue_button vision screenshot
      = self₂.detect_blue_button vision screenshot := by
  simp [DiscordQueueClicker.detect_blue_button, hl, hu]

/-- The monitoring loop only reads the colour-range fields of the
object. -/
theorem start_monitoring_congr (self₁ self₂ : DiscordQueueClicker)
    (vision : Vision) (ocr : OCRCap) (keywords : List String)
    (use_ocr : Bool) (hl : self₁.lower_blue = self₂.lower_blue)
    (hu : self₁.upper_blue = self₂.upper_blue) :
    ∀ inputs : List TickInput,
      self₁.start_monitoring vision ocr keywords use_ocr inputs
        = self₂.start_monitoring vision ocr keywords use_ocr inputs := by
  intro inputs
  induction inputs with
  | nil => rfl
  | cons i rest ih =>
    cases i with
    | interrupt => rfl
    | err m => rfl
    | frame s =>
      have hd := detect_congr self₁ self₂ vision s hl hu
      simp only [DiscordQueueClicker.start_monitoring, hd]
      cases hct : clickTarget use_ocr ocr s keywords
          (self₂.detect_blue_button vision s) with
      | none => simpa [hct] using ih
      | some r =>
        obtain ⟨x, y, w, h⟩ := r
        simp [hct]

/-- C10: the `confidence` construction parameter is dead configuration —
two instances differing only in `confidence` produce the same candidate
list from `detect_blue_button` and the same whole-run behaviour (clicks,
outcome, flag) from `start_monitoring`, for every vision capability,
OCR capability, keyword list, mode and input sequence. -/
theorem confidence_unused (check_interval conf₁ conf₂ : ℚ)
    (vision : Vision) (ocr : OCRCap) (keywords : List String)
    (use_ocr : Bool) (screenshot : Buf) (inputs : List TickInput) :
    (DiscordQueueClicker.init check_interval conf₁).detect_blue_button
        vision screenshot
      = (DiscordQueueClicker.init check_interval conf₂).detect_blue_button
        vision screenshot ∧
    (DiscordQueueClicker.init check_interval conf₁).start_monitoring
        vision ocr keywords use_ocr inputs
      = (DiscordQueueClicker.init check_interval conf₂).start_monitoring
        vision ocr keywords use_ocr inputs :=
  ⟨detect_congr (DiscordQueueClicker.init check_interval conf₁)
      (DiscordQueueClicker.init check_interval conf₂) vision screenshot
      rfl rfl,
   start_monitoring_congr (DiscordQueueClicker.init check_interval conf₁)
      (DiscordQueueClicker.init check_interval conf₂) vision ocr keywords
      use_ocr rfl rfl inputs⟩

end DQC
